import Mathlib

/-!
Verification of the business-plan calculator (src/business-calculator.py).

The two computation functions, `calculate_monthly_metrics` and
`calculate_annual_projection`, are pure arithmetic over scalars.  We embed
them over `ℚ` (the source performs exact real-style arithmetic; decimal
literals such as `0.029` denote the exact rationals).  The dictionaries the
Python functions return are modelled as structures whose fields are the
dictionary keys, in source order.
-/

/-- Output of `calculate_monthly_metrics`: the eleven keys of the returned
dictionary, in source order. -/
structure MonthlyMetrics where
  revenue : ℚ
  orders : ℚ
  purchase_cost : ℚ
  shipping_total : ℚ
  shopify_fees : ℚ
  fixed_costs : ℚ
  gross_margin : ℚ
  net_margin : ℚ
  gross_margin_rate : ℚ
  marketing_ratio : ℚ
  break_even : ℚ
deriving DecidableEq, Repr

/-- Output of `calculate_annual_projection`: the eleven monthly keys scaled,
plus the `taxes` and `net_profit` keys added by the function. -/
structure AnnualProjection where
  revenue : ℚ
  orders : ℚ
  purchase_cost : ℚ
  shipping_total : ℚ
  shopify_fees : ℚ
  fixed_costs : ℚ
  gross_margin : ℚ
  net_margin : ℚ
  gross_margin_rate : ℚ
  marketing_ratio : ℚ
  break_even : ℚ
  taxes : ℚ
  net_profit : ℚ
deriving DecidableEq, Repr

/-- Embedding of `calculate_monthly_metrics` (src/business-calculator.py,
lines 5–54).  `initial_capital` and `initial_stock` are accepted, as in the
source signature, though the body never reads them.  `total_fixed_costs` is
the sum of the four values of the `fixed_costs` dict
(Shopify 32, SEO 200, Domain 1.25, Marketing marketing_budget). -/
def calculate_monthly_metrics (monthly_traffic conversion_rate average_basket
    initial_capital initial_stock purchase_price_ratio shipping_cost
    marketing_budget : ℚ) : MonthlyMetrics :=
  let orders := monthly_traffic * (conversion_rate / 100)
  let revenue := orders * average_basket
  let purchase_cost := revenue * (purchase_price_ratio / 100)
  let shipping_total := orders * shipping_cost
  let shopify_fees := (revenue * 0.029) + (orders * 0.30)
  let total_fixed_costs := 32 + 200 + 1.25 + marketing_budget
  let gross_margin := revenue - purchase_cost - shipping_total - shopify_fees
  let net_margin := gross_margin - total_fixed_costs
  let gross_margin_rate := if revenue > 0 then (gross_margin / revenue) * 100 else 0
  let marketing_ratio := if revenue > 0 then (marketing_budget / revenue) * 100 else 0
  let break_even :=
    if gross_margin_rate > 0 then total_fixed_costs / (gross_margin_rate / 100) else 0
  { revenue := revenue
    orders := orders
    purchase_cost := purchase_cost
    shipping_total := shipping_total
    shopify_fees := shopify_fees
    fixed_costs := total_fixed_costs
    gross_margin := gross_margin
    net_margin := net_margin
    gross_margin_rate := gross_margin_rate
    marketing_ratio := marketing_ratio
    break_even := break_even }

/-- Embedding of `calculate_annual_projection` (src/business-calculator.py,
lines 56–60): every entry of the monthly dict times 12, then
`taxes = max(0, annual net_margin * 0.20)` and
`net_profit = annual net_margin - taxes`. -/
def calculate_annual_projection (m : MonthlyMetrics) : AnnualProjection :=
  let taxes := max 0 ((m.net_margin * 12) * 0.20)
  { revenue := m.revenue * 12
    orders := m.orders * 12
    purchase_cost := m.purchase_cost * 12
    shipping_total := m.shipping_total * 12
    shopify_fees := m.shopify_fees * 12
    fixed_costs := m.fixed_costs * 12
    gross_margin := m.gross_margin * 12
    net_margin := m.net_margin * 12
    gross_margin_rate := m.gross_margin_rate * 12
    marketing_ratio := m.marketing_ratio * 12
    break_even := m.break_even * 12
    taxes := taxes
    net_profit := (m.net_margin * 12) - taxes }

/-- C1: for every input tuple, `calculate_monthly_metrics` returns
`orders = monthly_traffic * (conversion_rate / 100)`,
`revenue = orders * average_basket`,
`purchase_cost = revenue * (purchase_price_ratio / 100)`,
`shipping_total = orders * shipping_cost`, and
`shopify_fees = revenue * 0.029 + orders * 0.30`. -/
theorem C1_basic_formulas (monthly_traffic conversion_rate average_basket
    initial_capital initial_stock purchase_price_ratio shipping_cost
    marketing_budget : ℚ) :
    (calculate_monthly_metrics monthly_traffic conversion_rate average_basket
        initial_capital initial_stock purchase_price_ratio shipping_cost
        marketing_budget).orders = monthly_traffic * (conversion_rate / 100)
    ∧ (calculate_monthly_metrics monthly_traffic conversion_rate average_basket
        initial_capital initial_stock purchase_price_ratio shipping_cost
        marketing_budget).revenue
      = (calculate_monthly_metrics monthly_traffic conversion_rate average_basket
          initial_capital initial_stock purchase_price_ratio shipping_cost
          marketing_budget).orders * average_basket
    ∧ (calculate_monthly_metrics monthly_traffic conversion_rate average_basket
        initial_capital initial_stock purchase_price_ratio shipping_cost
        marketing_budget).purchase_cost
      = (calculate_monthly_metrics monthly_traffic conversion_rate average_basket
          initial_capital initial_stock purchase_price_ratio shipping_cost
          marketing_budget).revenue * (purchase_price_ratio / 100)
    ∧ (calculate_monthly_metrics monthly_traffic conversion_rate average_basket
        initial_capital initial_stock purchase_price_ratio shipping_cost
        marketing_budget).shipping_total
      = (calculate_monthly_metrics monthly_traffic conversion_rate average_basket
          initial_capital initial_stock purchase_price_ratio shipping_cost
          marketing_budget).orders * shipping_cost
    ∧ (calculate_monthly_metrics monthly_traffic conversion_rate average_basket
        initial_capital initial_stock purchase_price_ratio shipping_cost
        marketing_budget).shopify_fees
      = (calculate_monthly_metrics monthly_traffic conversion_rate average_basket
          initial_capital initial_stock purchase_price_ratio shipping_cost
          marketing_budget).revenue * 0.029
        + (calculate_monthly_metrics monthly_traffic conversion_rate average_basket
            initial_capital initial_stock purchase_price_ratio shipping_cost
            marketing_budget).orders * 0.30 :=
  ⟨rfl, rfl, rfl, rfl, rfl⟩

/-- C2: for every input, `gross_margin = revenue - purchase_cost -
shipping_total - shopify_fees` and `net_margin = gross_margin - fixed_costs`,
with no precondition on the inputs. -/
theorem C2_margin_equations (monthly_traffic conversion_rate average_basket
    initial_capital initial_stock purchase_price_ratio shipping_cost
    marketing_budget : ℚ) :
    (calculate_monthly_metrics monthly_traffic conversion_rate average_basket
        initial_capital initial_stock purchase_price_ratio shipping_cost
        marketing_budget).gross_margin
      = (calculate_monthly_metrics monthly_traffic conversion_rate average_basket
          initial_capital initial_stock purchase_price_ratio shipping_cost
          marketing_budget).revenue
        - (calculate_monthly_metrics monthly_traffic conversion_rate average_basket
            initial_capital initial_stock purchase_price_ratio shipping_cost
            marketing_budget).purchase_cost
        - (calculate_monthly_metrics monthly_traffic conversion_rate average_basket
            initial_capital initial_stock purchase_price_ratio shipping_cost
            marketing_budget).shipping_total
        - (calculate_monthly_metrics monthly_traffic conversion_rate average_basket
            initial_capital initial_stock purchase_price_ratio shipping_cost
            marketing_budget).shopify_fees
    ∧ (calculate_monthly_metrics monthly_traffic conversion_rate average_basket
        initial_capital initial_stock purchase_price_ratio shipping_cost
        marketing_budget).net_margin
      = (calculate_monthly_metrics monthly_traffic conversion_rate average_basket
          initial_capital initial_stock purchase_price_ratio shipping_cost
          marketing_budget).gross_margin
        - (calculate_monthly_metrics monthly_traffic conversion_rate average_basket
            initial_capital initial_stock purchase_price_ratio shipping_cost
            marketing_budget).fixed_costs :=
  ⟨rfl, rfl⟩

/-- C3: for every input, the `fixed_costs` field equals exactly
`32 + 200 + 1.25 + marketing_budget`. -/
theorem C3_fixed_costs (monthly_traffic conversion_rate average_basket
    initial_capital initial_stock purchase_price_ratio shipping_cost
    marketing_budget : ℚ) :
    (calculate_monthly_metrics monthly_traffic conversion_rate average_basket
        initial_capital initial_stock purchase_price_ratio shipping_cost
        marketing_budget).fixed_costs = 32 + 200 + 1.25 + marketing_budget :=
  rfl

/-- C9: `calculate_monthly_metrics` is deterministic and stateless — two
invocations whose eight input values are pairwise identical return
MonthlyMetrics values identical in every field. -/
theorem C9_deterministic (monthly_traffic conversion_rate average_basket
    initial_capital initial_stock purchase_price_ratio shipping_cost
    marketing_budget monthly_traffic2 conversion_rate2 average_basket2
    initial_capital2 initial_stock2 purchase_price_ratio2 shipping_cost2
    marketing_budget2 : ℚ)
    (h : monthly_traffic = monthly_traffic2 ∧ conversion_rate = conversion_rate2
      ∧ average_basket = average_basket2 ∧ initial_capital = initial_capital2
      ∧ initial_stock = initial_stock2 ∧ purchase_price_ratio = purchase_price_ratio2
      ∧ shipping_cost = shipping_cost2 ∧ marketing_budget = marketing_budget2) :
    calculate_monthly_metrics monthly_traffic conversion_rate average_basket
        initial_capital initial_stock purchase_price_ratio shipping_cost
        marketing_budget
      = calculate_monthly_metrics monthly_traffic2 conversion_rate2 average_basket2
          initial_capital2 initial_stock2 purchase_price_ratio2 shipping_cost2
          marketing_budget2 := by
  obtain ⟨h1, h2, h3, h4, h5, h6, h7, h8⟩ := h
  subst h1 h2 h3 h4 h5 h6 h7 h8
  rfl

/-- Witness for C9 at the example scenario input, with both invocations
written out literally. -/
theorem C9_deterministic_witness :
    calculate_monthly_metrics 1000 2 80 10000 3000 40 6 300
      = calculate_monthly_metrics 1000 2 80 10000 3000 40 6 300 :=
  C9_deterministic 1000 2 80 10000 3000 40 6 300 1000 2 80 10000 3000 40 6 300
    ⟨rfl, rfl, rfl, rfl, rfl, rfl, rfl, rfl⟩

/-- C10: the output does not depend on `initial_capital` or `initial_stock` —
two inputs that differ only in those two fields give equal MonthlyMetrics. -/
theorem C10_capital_stock_unused (monthly_traffic conversion_rate average_basket
    initial_capital initial_stock initial_capital2 initial_stock2
    purchase_price_ratio shipping_cost marketing_budget : ℚ) :
    calculate_monthly_metrics monthly_traffic conversion_rate average_basket
        initial_capital initial_stock purchase_price_ratio shipping_cost
        marketing_budget
      = calculate_monthly_metrics monthly_traffic conversion_rate average_basket
          initial_capital2 initial_stock2 purchase_price_ratio shipping_cost
          marketing_budget :=
  rfl

/-- C4: every division in `calculate_monthly_metrics` is guarded —
`gross_margin_rate` and `marketing_ratio` divide by `revenue` only under the
`revenue > 0` test and are `0` otherwise, `break_even` divides by
`gross_margin_rate / 100` only under the `gross_margin_rate > 0` test and is
`0` otherwise — and when `monthly_traffic = 0` or `conversion_rate = 0` the
function returns `orders = 0`, `revenue = 0`, `gross_margin_rate = 0`,
`marketing_ratio = 0` and `break_even = 0`. -/
theorem C4_division_guards (monthly_traffic conversion_rate average_basket
    initial_capital initial_stock purchase_price_ratio shipping_cost
    marketing_budget : ℚ) :
    (let m := calculate_monthly_metrics monthly_traffic conversion_rate
        average_basket initial_capital initial_stock purchase_price_ratio
        shipping_cost marketing_budget
    (m.gross_margin_rate
        = if m.revenue > 0 then (m.gross_margin / m.revenue) * 100 else 0)
    ∧ (m.marketing_ratio
        = if m.revenue > 0 then (marketing_budget / m.revenue) * 100 else 0)
    ∧ (m.break_even
        = if m.gross_margin_rate > 0
          then m.fixed_costs / (m.gross_margin_rate / 100) else 0)
    ∧ (monthly_traffic = 0 ∨ conversion_rate = 0 →
        m.orders = 0 ∧ m.revenue = 0 ∧ m.gross_margin_rate = 0
        ∧ m.marketing_ratio = 0 ∧ m.break_even = 0)) := by
  refine ⟨rfl, rfl, rfl, ?_⟩
  rintro (h | h) <;> subst h <;>
    norm_num [calculate_monthly_metrics]

/-- Witness for C4: the zero-traffic branch at a concrete input. -/
theorem C4_division_guards_witness :
    (calculate_monthly_metrics 0 2 80 10000 3000 40 6 300).break_even = 0 :=
  ((C4_division_guards 0 2 80 10000 3000 40 6 300).2.2.2 (Or.inl rfl)).2.2.2.2

/-- C5: every numeric field of the AnnualProjection other than `taxes` and
`net_profit` equals 12 times the corresponding MonthlyMetrics field,
including the ratio fields `gross_margin_rate`, `marketing_ratio` and
`break_even`. -/
theorem C5_uniform_scaling (m : MonthlyMetrics) :
    (calculate_annual_projection m).revenue = 12 * m.revenue
    ∧ (calculate_annual_projection m).orders = 12 * m.orders
    ∧ (calculate_annual_projection m).purchase_cost = 12 * m.purchase_cost
    ∧ (calculate_annual_projection m).shipping_total = 12 * m.shipping_total
    ∧ (calculate_annual_projection m).shopify_fees = 12 * m.shopify_fees
    ∧ (calculate_annual_projection m).fixed_costs = 12 * m.fixed_costs
    ∧ (calculate_annual_projection m).gross_margin = 12 * m.gross_margin
    ∧ (calculate_annual_projection m).net_margin = 12 * m.net_margin
    ∧ (calculate_annual_projection m).gross_margin_rate = 12 * m.gross_margin_rate
    ∧ (calculate_annual_projection m).marketing_ratio = 12 * m.marketing_ratio
    ∧ (calculate_annual_projection m).break_even = 12 * m.break_even :=
  ⟨mul_comm m.revenue 12, mul_comm m.orders 12, mul_comm m.purchase_cost 12,
    mul_comm m.shipping_total 12, mul_comm m.shopify_fees 12,
    mul_comm m.fixed_costs 12, mul_comm m.gross_margin 12,
    mul_comm m.net_margin 12, mul_comm m.gross_margin_rate 12,
    mul_comm m.marketing_ratio 12, mul_comm m.break_even 12⟩

/-- C6: in the annual projection, `taxes = 0` when the annual net margin
(12 times the monthly `net_margin`) is nonpositive, `taxes = 0.20` times the
annual net margin when it is positive (so `taxes` is never negative), and
`net_profit` = annual net margin minus `taxes` in both cases. -/
theorem C6_tax_formula (m : MonthlyMetrics) :
    (m.net_margin * 12 ≤ 0 → (calculate_annual_projection m).taxes = 0)
    ∧ (0 < m.net_margin * 12 →
        (calculate_annual_projection m).taxes = 0.20 * (m.net_margin * 12))
    ∧ 0 ≤ (calculate_annual_projection m).taxes
    ∧ (calculate_annual_projection m).net_profit
      = m.net_margin * 12 - (calculate_annual_projection m).taxes := by
  refine ⟨?_, ?_, le_max_left 0 _, rfl⟩
  · intro h
    exact max_eq_left (by nlinarith)
  · intro h
    show max 0 ((m.net_margin * 12) * 0.20) = 0.20 * (m.net_margin * 12)
    rw [max_eq_right (by nlinarith)]
    ring

/-- Witness for C6 at a concrete MonthlyMetrics with positive net margin
(monthly net margin 10, annual 120, taxes 24). -/
theorem C6_tax_formula_witness :
    (calculate_annual_projection
        ⟨0, 0, 0, 0, 0, 0, 0, 10, 0, 0, 0⟩).taxes = 0.20 * ((10 : ℚ) * 12) :=
  (C6_tax_formula ⟨0, 0, 0, 0, 0, 0, 0, 10, 0, 0, 0⟩).2.1 (by norm_num)

/-- C7 counterexample: at the example input, the `break_even` returned by the
code is `2133000 / 1969 ≈ 1083.29`, not `≈ 1083.42` as claimed — it is more
than `0.01` away from `1083.42` (the spec's own tolerance elsewhere is
`1e-9`). -/
theorem C7_break_even_not_1083_42 :
    ¬ |(calculate_monthly_metrics 1000 2 80 10000 3000 40 6 300).break_even
          - 1083.42| < 1 / 100 := by
  norm_num [calculate_monthly_metrics, abs_sub_lt_iff]
  rw [show |(12699 : ℚ) / 98450| = 12699 / 98450 from abs_of_pos (by norm_num)]
  norm_num

/-- C7 (amended): at input `(1000, 2.0, 80.0, 10000, 3000, 40.0, 6.0, 300.0)`
the function returns `orders = 20`, `revenue = 1600`, `purchase_cost = 640`,
`shipping_total = 120`, `shopify_fees = 52.4`, `fixed_costs = 533.25`,
`gross_margin = 787.6`, `net_margin = 254.35`, `gross_margin_rate = 49.225`,
`marketing_ratio = 18.75` and `break_even = 2133000 / 1969 ≈ 1083.29`; the
annual projection then has `net_margin = 3052.2`, `taxes = 610.44` and
`net_profit = 2441.76`. -/
theorem C7_example_scenario :
    (calculate_monthly_metrics 1000 2 80 10000 3000 40 6 300).orders = 20
    ∧ (calculate_monthly_metrics 1000 2 80 10000 3000 40 6 300).revenue = 1600
    ∧ (calculate_monthly_metrics 1000 2 80 10000 3000 40 6 300).purchase_cost = 640
    ∧ (calculate_monthly_metrics 1000 2 80 10000 3000 40 6 300).shipping_total = 120
    ∧ (calculate_monthly_metrics 1000 2 80 10000 3000 40 6 300).shopify_fees = 52.4
    ∧ (calculate_monthly_metrics 1000 2 80 10000 3000 40 6 300).fixed_costs = 533.25
    ∧ (calculate_monthly_metrics 1000 2 80 10000 3000 40 6 300).gross_margin = 787.6
    ∧ (calculate_monthly_metrics 1000 2 80 10000 3000 40 6 300).net_margin = 254.35
    ∧ (calculate_monthly_metrics 1000 2 80 10000 3000 40 6 300).gross_margin_rate
      = 49.225
    ∧ (calculate_monthly_metrics 1000 2 80 10000 3000 40 6 300).marketing_ratio
      = 18.75
    ∧ (calculate_monthly_metrics 1000 2 80 10000 3000 40 6 300).break_even
      = 2133000 / 1969
    ∧ (calculate_annual_projection
        (calculate_monthly_metrics 1000 2 80 10000 3000 40 6 300)).net_margin
      = 3052.2
    ∧ (calculate_annual_projection
        (calculate_monthly_metrics 1000 2 80 10000 3000 40 6 300)).taxes
      = 610.44
    ∧ (calculate_annual_projection
        (calculate_monthly_metrics 1000 2 80 10000 3000 40 6 300)).net_profit
      = 2441.76 := by
  norm_num [calculate_monthly_metrics, calculate_annual_projection]

/-- C8: when all eight inputs are non-negative, the currency fields
`revenue`, `purchase_cost`, `shipping_total`, `shopify_fees`, `fixed_costs`
and `break_even` of the result are all non-negative. -/
theorem C8_currency_nonneg (monthly_traffic conversion_rate average_basket
    initial_capital initial_stock purchase_price_ratio shipping_cost
    marketing_budget : ℚ)
    (hmt : 0 ≤ monthly_traffic) (hcr : 0 ≤ conversion_rate)
    (hab : 0 ≤ average_basket) (hic : 0 ≤ initial_capital)
    (histk : 0 ≤ initial_stock) (hppr : 0 ≤ purchase_price_ratio)
    (hsc : 0 ≤ shipping_cost) (hmb : 0 ≤ marketing_budget) :
    0 ≤ (calculate_monthly_metrics monthly_traffic conversion_rate
        average_basket initial_capital initial_stock purchase_price_ratio
        shipping_cost marketing_budget).revenue
    ∧ 0 ≤ (calculate_monthly_metrics monthly_traffic conversion_rate
        average_basket initial_capital initial_stock purchase_price_ratio
        shipping_cost marketing_budget).purchase_cost
    ∧ 0 ≤ (calculate_monthly_metrics monthly_traffic conversion_rate
        average_basket initial_capital initial_stock purchase_price_ratio
        shipping_cost marketing_budget).shipping_total
    ∧ 0 ≤ (calculate_monthly_metrics monthly_traffic conversion_rate
        average_basket initial_capital initial_stock purchase_price_ratio
        shipping_cost marketing_budget).shopify_fees
    ∧ 0 ≤ (calculate_monthly_metrics monthly_traffic conversion_rate
        average_basket initial_capital initial_stock purchase_price_ratio
        shipping_cost marketing_budget).fixed_costs
    ∧ 0 ≤ (calculate_monthly_metrics monthly_traffic conversion_rate
        average_basket initial_capital initial_stock purchase_price_ratio
        shipping_cost marketing_budget).break_even := by
  have horders : 0 ≤ monthly_traffic * (conversion_rate / 100) :=
    mul_nonneg hmt (div_nonneg hcr (by norm_num))
  have hrev : 0 ≤ monthly_traffic * (conversion_rate / 100) * average_basket :=
    mul_nonneg horders hab
  have hfees : 0 ≤ monthly_traffic * (conversion_rate / 100) * average_basket
      * (0.029 : ℚ) + monthly_traffic * (conversion_rate / 100) * (0.30 : ℚ) := by
    have h1 := mul_nonneg hrev (show (0 : ℚ) ≤ 0.029 by norm_num)
    have h2 := mul_nonneg horders (show (0 : ℚ) ≤ 0.30 by norm_num)
    linarith
  have hfix : (0 : ℚ) ≤ 32 + 200 + 1.25 + marketing_budget := by linarith
  refine ⟨hrev, mul_nonneg hrev (div_nonneg hppr (by norm_num)),
    mul_nonneg horders hsc, hfees, hfix, ?_⟩
  show 0 ≤ (calculate_monthly_metrics monthly_traffic conversion_rate
      average_basket initial_capital initial_stock purchase_price_ratio
      shipping_cost marketing_budget).break_even
  simp only [calculate_monthly_metrics]
  split_ifs with h1 h2 h3
  · exact div_nonneg hfix (div_nonneg h2.le (by norm_num))
  · exact le_refl 0
  · exact div_nonneg hfix (div_nonneg h3.le (by norm_num))
  · exact le_refl 0

/-- Witness for C8 at the example scenario input. -/
theorem C8_currency_nonneg_witness :
    0 ≤ (calculate_monthly_metrics 1000 2 80 10000 3000 40 6 300).break_even :=
  (C8_currency_nonneg 1000 2 80 10000 3000 40 6 300 (by norm_num) (by norm_num)
    (by norm_num) (by norm_num) (by norm_num) (by norm_num) (by norm_num)
    (by norm_num)).2.2.2.2.2
